import Mathlib

/-!
# Verification of the RTDGI renderer core (`src/renderers/rtdgi.rs`)

A shallow embedding of the ray-traced diffuse global-illumination renderer:
its data model (image descriptors, render-graph resource handles, the
ping-pong temporal store), its constructor (`new`, with the three sampling
LUT buffers), and its per-frame entry point (`render`, composing the trace,
temporal-filter, spatial-filter and upsample passes).

External collaborators that the source file uses but whose code is outside
the translated file (the render-graph engine's `SimpleRenderPass` builder,
`PingPongTemporalResource`, `GbufferDepth`, `ImageDesc` combinators) are
modelled from the specification's description of their interfaces; each such
definition carries a doc comment saying so.
-/

/-- A 2D extent, mirroring the `[u32; 2]` extents used by `ImageDesc::new_2d`
and `extent_2d()`. -/
structure Extent2 where
  width : Nat
  height : Nat
deriving DecidableEq, Repr

/-- Vulkan image formats, restricted to the ones this file mentions. -/
inductive Format where
  | R16G16B16A16_SFLOAT
  | other (code : Nat)
deriving DecidableEq, Repr

/-- Image usage flags: the `SAMPLED` and `STORAGE` bits used in the source. -/
structure ImageUsageFlags where
  sampled : Bool
  storage : Bool
deriving DecidableEq, Repr

def ImageUsageFlags.empty : ImageUsageFlags := ⟨false, false⟩

/-- `vk::ImageUsageFlags::SAMPLED | vk::ImageUsageFlags::STORAGE`. -/
def ImageUsageFlags.sampledStorage : ImageUsageFlags := ⟨true, true⟩

/-- A 2D image descriptor: format, extent and usage, as used by the source's
calls to `ImageDesc::new_2d`, `.usage(..)`, `.format(..)`, `.half_res()`. -/
structure ImageDesc where
  format : Format
  extent : Extent2
  usage : ImageUsageFlags
deriving DecidableEq, Repr

/-- `ImageDesc::new_2d(format, extent)` (backend code outside `src/`).
Modelled from the spec: an image resource is created from a descriptor with
format, extent, and usage flags. -/
def ImageDesc.new_2d (format : Format) (extent : Extent2) : ImageDesc :=
  ⟨format, extent, ImageUsageFlags.empty⟩

/-- `.usage(u)` combinator: replaces the usage flags. -/
def ImageDesc.withUsage (d : ImageDesc) (u : ImageUsageFlags) : ImageDesc :=
  { d with usage := u }

/-- `.format(f)` combinator: replaces the format, keeping extent and usage. -/
def ImageDesc.withFormat (d : ImageDesc) (f : Format) : ImageDesc :=
  { d with format := f }

/-- `.half_res()` (backend code outside `src/`).
Modelled from the spec: "Half-resolution variants derive their extent from
the full-resolution G-buffer extent by integer halving." -/
def ImageDesc.half_res (d : ImageDesc) : ImageDesc :=
  { d with extent := ⟨d.extent.width / 2, d.extent.height / 2⟩ }

/-- `.desc().extent_2d()`. -/
def ImageDesc.extent_2d (d : ImageDesc) : Extent2 := d.extent

/-- The scalar/constant parameters a pass declares.  Extent/inverse-extent
pairs are kept symbolically by their extent (their float inverses carry no
more information); the shared kernel-offset table of the `rtr` module is a
single named constant, represented by the nullary constructor
`spatialResolveOffsets` — both the spatial and the upsample pass cite this
one constant in the source. -/
inductive ConstParam where
  | extentInvExtent (extent : Extent2)
  | spatialResolveOffsets
deriving DecidableEq, Repr

/-- Dispatch shape of a pass: a compute dispatch over an extent, or a ray
dispatch against an acceleration structure over an extent. -/
inductive DispatchShape where
  | compute (extent : Extent2)
  | rays (tlas : Nat) (extent : Extent2)
deriving DecidableEq, Repr

/-- A declared pass: name, ordered read list, ordered write list, constants,
and dispatch shape.  Resources are identified by the graph's handle ids. -/
structure Pass where
  name : String
  reads : List Nat
  writes : List Nat
  consts : List ConstParam
  dispatch : DispatchShape
deriving DecidableEq, Repr

/-- The render graph being built for a frame: a fresh-handle counter, the
descriptors of images created through it, the passes added so far, and a log
of which ping-pong temporal resources were queried (by name). -/
structure RenderGraph where
  nextId : Nat
  images : List (Nat × ImageDesc)
  passes : List Pass
  temporalQueries : List String
deriving Repr

/-- Allocate a fresh resource handle. -/
def RenderGraph.alloc (g : RenderGraph) : RenderGraph × Nat :=
  ({ g with nextId := g.nextId + 1 }, g.nextId)

/-- `rg.create(desc)`: allocate a fresh transient image with the given
descriptor. -/
def RenderGraph.create (g : RenderGraph) (d : ImageDesc) : RenderGraph × Nat :=
  let (g, id) := g.alloc
  ({ g with images := g.images ++ [(id, d)] }, id)

/-- `rg.import(buffer, access_type)`: bring an externally owned buffer into
the frame's graph under a fresh handle. -/
def RenderGraph.importBuffer (g : RenderGraph) : RenderGraph × Nat :=
  g.alloc

/-- Append a finished pass to the graph. -/
def RenderGraph.addPass (g : RenderGraph) (p : Pass) : RenderGraph :=
  { g with passes := g.passes ++ [p] }

/-- Record that a ping-pong temporal resource with the given name was queried
this frame. -/
def RenderGraph.logTemporalQuery (g : RenderGraph) (name : String) : RenderGraph :=
  { g with temporalQueries := g.temporalQueries ++ [name] }

/-- `PingPongTemporalResource` (renderer code outside `src/`).
Modelled from the spec: two image resources (A, B) plus a parity bit; on
first call (or when the requested descriptor changes) both physical images
are allocated with the requested descriptor; on subsequent matching calls the
existing pair is returned with roles swapped relative to the previous call. -/
structure PingPongTemporalResource where
  name : String
  slots : Option (Nat × Nat × ImageDesc)
  parity : Bool
deriving DecidableEq, Repr

/-- `PingPongTemporalResource::new(name)` — no images allocated yet. -/
def PingPongTemporalResource.new (name : String) : PingPongTemporalResource :=
  ⟨name, none, false⟩

/-- `get_output_and_history(rg, desc)` (renderer code outside `src/`).
Modelled from the spec: allocates both physical images on first call or on
descriptor change; otherwise returns the existing pair with output/history
roles swapped relative to the previous call.  Returns the updated store, the
updated graph, the output handle and the history handle. -/
def PingPongTemporalResource.get_output_and_history
    (p : PingPongTemporalResource) (g : RenderGraph) (d : ImageDesc) :
    PingPongTemporalResource × RenderGraph × Nat × Nat :=
  let g := g.logTemporalQuery p.name
  match p.slots with
  | some (a, b, stored) =>
    if stored = d then
      let (out, hist) := if p.parity then (b, a) else (a, b)
      ({ p with parity := !p.parity }, g, out, hist)
    else
      let (g, a) := g.create d
      let (g, b) := g.create d
      ({ p with slots := some (a, b, d), parity := true }, g, a, b)
  | none =>
    let (g, a) := g.create d
    let (g, b) := g.create d
    ({ p with slots := some (a, b, d), parity := true }, g, a, b)

/-- `GbufferDepth` (renderer code outside `src/`).
Modelled from the spec: the G-buffer/depth producer exposes the full-
resolution G-buffer and depth images and cached half-resolution view-normal
and depth derivations; `half_view_normal(rg)` / `half_depth(rg)` return the
cached resources, so repeated calls yield the same handles. -/
structure GbufferDepth where
  gbufferId : Nat
  gbufferDesc : ImageDesc
  depthId : Nat
  halfViewNormalId : Nat
  halfViewNormalDesc : ImageDesc
  halfDepthId : Nat
deriving Repr

/-- `gbuffer_depth.half_view_normal(rg)`: the cached half-res view-normal. -/
def GbufferDepth.half_view_normal (gd : GbufferDepth) : Nat × ImageDesc :=
  (gd.halfViewNormalId, gd.halfViewNormalDesc)

/-- `gbuffer_depth.half_depth(rg)`: the cached half-res depth. -/
def GbufferDepth.half_depth (gd : GbufferDepth) : Nat :=
  gd.halfDepthId

/-- `csgi2::Csgi2Volume`: the cascaded-volume GI provider's two radiance
cascade images (external collaborator). -/
structure Csgi2Volume where
  direct_cascade0 : Nat
  indirect_cascade0 : Nat
deriving Repr

/-- A writable image handle returned by the graph. -/
structure Handle where
  id : Nat
deriving DecidableEq, Repr

/-- `rg::ReadOnlyHandle<Image>`: the read-only exposure of an image.  The
pass builder's write operation accepts only `Handle`, never `ReadOnlyHandle`,
so no further writes can be declared through a value of this type. -/
structure ReadOnlyHandle where
  id : Nat
deriving DecidableEq, Repr

/-- `upsampled_tex.into()`: converting a handle into its read-only form. -/
def Handle.into (h : Handle) : ReadOnlyHandle := ⟨h.id⟩

/-- The `SimpleRenderPass` builder (render-graph engine code outside `src/`).
Modelled from the spec: a pass declaration accumulates an ordered list of
read dependencies, write dependencies and constants, and is finalised by a
dispatch shape. -/
structure SimpleRenderPass where
  name : String
  shaders : List String
  reads : List Nat
  writes : List Nat
  consts : List ConstParam
deriving Repr

/-- `SimpleRenderPass::new_compute(pass, shader_path)`. -/
def SimpleRenderPass.new_compute (name shader : String) : SimpleRenderPass :=
  ⟨name, [shader], [], [], []⟩

/-- `SimpleRenderPass::new_rt(pass, rgen, miss_shaders, hit_shaders)`. -/
def SimpleRenderPass.new_rt (name rgen : String) (miss hit : List String) :
    SimpleRenderPass :=
  ⟨name, rgen :: (miss ++ hit), [], [], []⟩

/-- `.read(handle)`: append a read dependency. -/
def SimpleRenderPass.read (p : SimpleRenderPass) (h : Nat) : SimpleRenderPass :=
  { p with reads := p.reads ++ [h] }

/-- `.read_aspect(handle, aspect)`: a read restricted to one image aspect
(the depth aspect, in this file); still a read dependency on the resource. -/
def SimpleRenderPass.read_aspect (p : SimpleRenderPass) (h : Nat) : SimpleRenderPass :=
  p.read h

/-- `.write(handle)`: append a write dependency. -/
def SimpleRenderPass.write (p : SimpleRenderPass) (h : Nat) : SimpleRenderPass :=
  { p with writes := p.writes ++ [h] }

/-- `.constants(tuple)`: set the constants block. -/
def SimpleRenderPass.constants (p : SimpleRenderPass) (cs : List ConstParam) :
    SimpleRenderPass :=
  { p with consts := p.consts ++ cs }

/-- `.raw_descriptor_set(set_index, descriptor_set)`: binds an externally
managed descriptor set; carries no graph resource dependency. -/
def SimpleRenderPass.raw_descriptor_set (p : SimpleRenderPass) (_setIdx _ds : Nat) :
    SimpleRenderPass :=
  p

/-- `.dispatch(extent)`: finalise as a compute pass on the graph. -/
def SimpleRenderPass.dispatch (p : SimpleRenderPass) (g : RenderGraph) (e : Extent2) :
    RenderGraph :=
  g.addPass ⟨p.name, p.reads, p.writes, p.consts, .compute e⟩

/-- `.trace_rays(tlas, extent)`: finalise as a ray-tracing pass on the graph. -/
def SimpleRenderPass.trace_rays (p : SimpleRenderPass) (g : RenderGraph)
    (tlas : Nat) (e : Extent2) : RenderGraph :=
  g.addPass ⟨p.name, p.reads, p.writes, p.consts, .rays tlas e⟩

/-- `vk::BufferUsageFlags`, restricted to what this file uses. -/
inductive BufferUsage where
  | STORAGE_BUFFER
deriving DecidableEq, Repr

/-- `BufferDesc::new(size, usage)`. -/
structure BufferDesc where
  size : Nat
  usage : BufferUsage
deriving DecidableEq, Repr

def BufferDesc.new (size : Nat) (usage : BufferUsage) : BufferDesc :=
  ⟨size, usage⟩

/-- A GPU buffer: its descriptor and its uploaded contents. -/
structure Buffer where
  desc : BufferDesc
  data : List UInt8
deriving DecidableEq, Repr

/-- `Device` (backend code outside `src/`).
Modelled from the spec: buffer creation with a synchronous initial upload
either succeeds, yielding a buffer with the requested descriptor holding the
uploaded bytes, or fails; `allocFails` abstracts the device-dependent failure
condition. -/
structure Device where
  allocFails : BufferDesc → List UInt8 → Bool

/-- `device.create_buffer(desc, Some(initial_data))`. -/
def Device.create_buffer (dev : Device) (d : BufferDesc) (init : List UInt8) :
    Option Buffer :=
  if dev.allocFails d init then none else some ⟨d, init⟩

/-- The little-endian byte representation of an `i32` value (4 bytes of its
two's-complement bit pattern). -/
def int32ToBytes (x : Int) : List UInt8 :=
  let n := (x % (2 ^ 32 : Int)).toNat
  [UInt8.ofNat (n % 256), UInt8.ofNat (n / 256 % 256),
   UInt8.ofNat (n / 256 ^ 2 % 256), UInt8.ofNat (n / 256 ^ 3 % 256)]

/-- `as_byte_slice_unchecked::<i32>(v)`: reinterpret a slice of `i32` values
as its underlying `v.len() * size_of::<i32>()` bytes. -/
def as_byte_slice_unchecked (v : List Int) : List UInt8 :=
  (v.map int32ToBytes).flatten

/-- `make_lut_buffer::<i32>(device, v)`: create a storage buffer of byte size
`v.len() * size_of::<i32>()`, uploading the table's bytes; the source's
`.unwrap()` aborts on failure, modelled by `Option`. -/
def make_lut_buffer (device : Device) (v : List Int) : Option Buffer :=
  device.create_buffer
    (BufferDesc.new (v.length * 4) BufferUsage.STORAGE_BUFFER)
    (as_byte_slice_unchecked v)

/-- The three precomputed tables of the external `blue_noise_sampler::spp16`
crate (`RANKING_TILE`, `SCRAMBLING_TILE`, `SOBOL`): fixed `i32` tables whose
values live outside this repository, so the model abstracts over them. -/
structure BlueNoiseTables where
  RANKING_TILE : List Int
  SCRAMBLING_TILE : List Int
  SOBOL : List Int

/-- `RtdgiRenderer`: the two ping-pong temporal stores and the three LUT
buffers. -/
structure RtdgiRenderer where
  temporal_tex : PingPongTemporalResource
  cv_temporal_tex : PingPongTemporalResource
  ranking_tile_buf : Buffer
  scambling_tile_buf : Buffer
  sobol_buf : Buffer
deriving DecidableEq, Repr

/-- `RtdgiRenderer::new(device)`: builds the two temporal stores and the
three LUT buffers; any LUT creation/upload failure aborts construction
(`.unwrap()`), so no partial value is ever produced. -/
def RtdgiRenderer.new (t : BlueNoiseTables) (device : Device) :
    Option RtdgiRenderer := do
  let ranking ← make_lut_buffer device t.RANKING_TILE
  let scambling ← make_lut_buffer device t.SCRAMBLING_TILE
  let sobol ← make_lut_buffer device t.SOBOL
  pure { temporal_tex := PingPongTemporalResource.new "rtdgi.final"
         cv_temporal_tex := PingPongTemporalResource.new "rtdgi.cv"
         ranking_tile_buf := ranking
         scambling_tile_buf := scambling
         sobol_buf := sobol }

/-- `RtdgiRenderer::temporal_tex_desc(extent)`. -/
def RtdgiRenderer.temporal_tex_desc (extent : Extent2) : ImageDesc :=
  (ImageDesc.new_2d Format.R16G16B16A16_SFLOAT extent).withUsage
    ImageUsageFlags.sampledStorage

/-- `RtdgiRenderer::temporal(...)`: the temporal filter stage.  Returns the
updated renderer state, the updated graph, and the temporally filtered
texture handle. -/
def RtdgiRenderer.temporal (self : RtdgiRenderer) (rg : RenderGraph)
    (input_color : Nat) (gbuffer_depth : GbufferDepth) (reprojection_map : Nat)
    (csgi_volume : Csgi2Volume) : RtdgiRenderer × RenderGraph × Nat :=
  let half_view_normal_tex := gbuffer_depth.half_view_normal
  let half_depth_tex := gbuffer_depth.half_depth
  let temporal_desc := RtdgiRenderer.temporal_tex_desc half_view_normal_tex.2.extent_2d
  let (tt, rg, temporal_output_tex, history_tex) :=
    self.temporal_tex.get_output_and_history rg temporal_desc
  let (cvt, rg, cv_temporal_output_tex, cv_history_tex) :=
    self.cv_temporal_tex.get_output_and_history rg temporal_desc
  let (rg, temporal_filtered_tex) := rg.create
    ((gbuffer_depth.gbufferDesc.half_res.withUsage ImageUsageFlags.empty).withFormat
      Format.R16G16B16A16_SFLOAT)
  let rg :=
    SimpleRenderPass.new_compute "rtdgi temporal"
        "/assets/shaders/rtdgi/temporal_filter.hlsl"
      |>.read input_color
      |>.read history_tex
      |>.read cv_history_tex
      |>.read reprojection_map
      |>.read half_view_normal_tex.1
      |>.read half_depth_tex
      |>.read csgi_volume.direct_cascade0
      |>.read csgi_volume.indirect_cascade0
      |>.write temporal_output_tex
      |>.write cv_temporal_output_tex
      |>.write temporal_filtered_tex
      |>.constants [ConstParam.extentInvExtent temporal_desc.extent_2d,
                    ConstParam.extentInvExtent gbuffer_depth.gbufferDesc.extent_2d]
      |>.dispatch rg temporal_desc.extent
  ({ self with temporal_tex := tt, cv_temporal_tex := cvt }, rg, temporal_filtered_tex)

/-- `RtdgiRenderer::spatial(...)`: the spatial filter stage (associated
function, no renderer state).  Returns the updated graph and the spatially
filtered texture handle. -/
def RtdgiRenderer.spatial (rg : RenderGraph) (input_color : Nat)
    (gbuffer_depth : GbufferDepth) (ssao_img : Nat) : RenderGraph × Nat :=
  let half_view_normal_tex := gbuffer_depth.half_view_normal
  let half_depth_tex := gbuffer_depth.half_depth
  let spatial_desc := RtdgiRenderer.temporal_tex_desc half_view_normal_tex.2.extent_2d
  let (rg, spatial_filtered_tex) := rg.create spatial_desc
  let rg :=
    SimpleRenderPass.new_compute "rtdgi spatial"
        "/assets/shaders/rtdgi/spatial_filter.hlsl"
      |>.read input_color
      |>.read half_view_normal_tex.1
      |>.read half_depth_tex
      |>.read ssao_img
      |>.write spatial_filtered_tex
      |>.constants [ConstParam.extentInvExtent spatial_desc.extent_2d,
                    ConstParam.spatialResolveOffsets]
      |>.dispatch rg spatial_desc.extent
  (rg, spatial_filtered_tex)

/-- `RtdgiRenderer::render(...)`: the per-frame entry point, composing trace,
temporal filter, spatial filter and upsample.  Returns the updated renderer
state, the updated graph, and the read-only full-resolution output handle. -/
def RtdgiRenderer.render (self : RtdgiRenderer) (rg : RenderGraph)
    (gbuffer_depth : GbufferDepth) (reprojection_map : Nat) (sky_cube : Nat)
    (bindless_descriptor_set : Nat) (tlas : Nat) (csgi_volume : Csgi2Volume)
    (ssao_img : Nat) : RtdgiRenderer × RenderGraph × ReadOnlyHandle :=
  let gbuffer_desc := gbuffer_depth.gbufferDesc
  let hit_desc :=
    ((gbuffer_desc.withUsage ImageUsageFlags.empty).half_res).withFormat
      Format.R16G16B16A16_SFLOAT
  let (rg, hit0_tex) := rg.create hit_desc
  let (rg, hit1_tex) := rg.create hit_desc
  let (rg, ranking_tile_buf) := rg.importBuffer
  let (rg, scambling_tile_buf) := rg.importBuffer
  let (rg, sobol_buf) := rg.importBuffer
  let rg :=
    SimpleRenderPass.new_rt "rtdgi trace"
        "/assets/shaders/rtdgi/trace_diffuse.rgen.hlsl"
        ["/assets/shaders/rt/triangle.rmiss.hlsl",
         "/assets/shaders/rt/shadow.rmiss.hlsl"]
        ["/assets/shaders/rt/triangle.rchit.hlsl"]
      |>.read gbuffer_depth.gbufferId
      |>.read_aspect gbuffer_depth.depthId
      |>.read ranking_tile_buf
      |>.read scambling_tile_buf
      |>.read sobol_buf
      |>.write hit0_tex
      |>.write hit1_tex
      |>.read csgi_volume.direct_cascade0
      |>.read csgi_volume.indirect_cascade0
      |>.read sky_cube
      |>.constants [ConstParam.extentInvExtent gbuffer_desc.extent_2d]
      |>.raw_descriptor_set 1 bindless_descriptor_set
      |>.trace_rays rg tlas hit_desc.extent
  let (self, rg, filtered_tex) :=
    self.temporal rg hit0_tex gbuffer_depth reprojection_map csgi_volume
  let (rg, filtered_tex) := RtdgiRenderer.spatial rg filtered_tex gbuffer_depth ssao_img
  let half_view_normal_tex := gbuffer_depth.half_view_normal
  let half_depth_tex := gbuffer_depth.half_depth
  let upsampled_desc := gbuffer_depth.gbufferDesc.withFormat Format.R16G16B16A16_SFLOAT
  let (rg, upsampled_tex) := rg.create upsampled_desc
  let rg :=
    SimpleRenderPass.new_compute "rtdgi upsample"
        "/assets/shaders/rtdgi/upsample.hlsl"
      |>.read filtered_tex
      |>.read_aspect gbuffer_depth.depthId
      |>.read gbuffer_depth.gbufferId
      |>.read half_view_normal_tex.1
      |>.read half_depth_tex
      |>.read ssao_img
      |>.write upsampled_tex
      |>.constants [ConstParam.extentInvExtent upsampled_desc.extent_2d,
                    ConstParam.spatialResolveOffsets]
      |>.dispatch rg upsampled_desc.extent
  (self, rg, Handle.into ⟨upsampled_tex⟩)

/-- The handles of the physical images a ping-pong store currently owns. -/
def PingPongTemporalResource.slotIds (p : PingPongTemporalResource) : List Nat :=
  match p.slots with
  | some (a, b, _) => [a, b]
  | none => []

theorem get_output_and_history_char (p : PingPongTemporalResource) (g : RenderGraph)
    (d : ImageDesc) (hlt : ∀ i ∈ p.slotIds, i < g.nextId) :
    ∃ p' g' out hist imgs,
      p.get_output_and_history g d = (p', g', out, hist) ∧
      p'.name = p.name ∧
      g'.passes = g.passes ∧
      g'.images = g.images ++ imgs ∧
      g'.temporalQueries = g.temporalQueries ++ [p.name] ∧
      g.nextId ≤ g'.nextId ∧
      out < g'.nextId ∧ hist < g'.nextId ∧
      (out ∈ p.slotIds ∨ g.nextId ≤ out) ∧
      (hist ∈ p.slotIds ∨ g.nextId ≤ hist) ∧
      (p.slotIds.Nodup → out ≠ hist) := by
  have hslots : p.slotIds = match p.slots with
    | some (a, b, _) => [a, b]
    | none => [] := rfl
  unfold PingPongTemporalResource.get_output_and_history
  rcases hs : p.slots with _ | ⟨a, b, stored⟩ <;> rw [hs] at hslots
  · refine ⟨_, _, _, _, [(g.nextId, d), (g.nextId + 1, d)], rfl, rfl, ?_, ?_, ?_, ?_, ?_, ?_, ?_, ?_, ?_⟩ <;>
      simp [RenderGraph.create, RenderGraph.alloc, RenderGraph.logTemporalQuery, hslots] <;> omega
  · by_cases hd : stored = d
    · subst hd
      simp only [hslots] at hlt
      by_cases hp : p.parity
      · refine ⟨{ p with parity := !p.parity }, g.logTemporalQuery p.name, b, a, [],
          ?_, rfl, rfl, ?_, rfl, ?_, ?_, ?_, ?_, ?_, ?_⟩ <;>
          simp [RenderGraph.logTemporalQuery, hslots, hp] <;> simp_all <;> omega
      · refine ⟨{ p with parity := !p.parity }, g.logTemporalQuery p.name, a, b, [],
          ?_, rfl, rfl, ?_, rfl, ?_, ?_, ?_, ?_, ?_, ?_⟩ <;>
          simp [RenderGraph.logTemporalQuery, hslots, hp] <;> simp_all <;> omega
    · refine ⟨{ p with slots := some (g.nextId, g.nextId + 1, d), parity := true },
        { nextId := g.nextId + 2, images := g.images ++ [(g.nextId, d), (g.nextId + 1, d)],
          passes := g.passes, temporalQueries := g.temporalQueries ++ [p.name] },
        g.nextId, g.nextId + 1, [(g.nextId, d), (g.nextId + 1, d)],
        ?_, rfl, rfl, rfl, rfl, ?_, ?_, ?_, ?_, ?_, ?_⟩ <;>
        simp [hd, RenderGraph.create, RenderGraph.alloc, RenderGraph.logTemporalQuery, hslots] <;>
        omega

theorem temporal_char (self : RtdgiRenderer) (rg : RenderGraph) (input_color : Nat)
    (gd : GbufferDepth) (reproj : Nat) (cs : Csgi2Volume)
    (hltT : ∀ i ∈ self.temporal_tex.slotIds, i < rg.nextId)
    (hltC : ∀ i ∈ self.cv_temporal_tex.slotIds, i < rg.nextId) :
    ∃ tt cvt rg' tOut tHist cvOut cvHist imgs tf g1 g2,
      self.temporal rg input_color gd reproj cs =
        ({ self with temporal_tex := tt, cv_temporal_tex := cvt }, rg', tf) ∧
      tt.name = self.temporal_tex.name ∧
      cvt.name = self.cv_temporal_tex.name ∧
      rg'.passes = rg.passes ++
        [⟨"rtdgi temporal",
          [input_color, tHist, cvHist, reproj, gd.halfViewNormalId, gd.halfDepthId,
           cs.direct_cascade0, cs.indirect_cascade0],
          [tOut, cvOut, tf],
          [ConstParam.extentInvExtent
             (RtdgiRenderer.temporal_tex_desc gd.halfViewNormalDesc.extent_2d).extent_2d,
           ConstParam.extentInvExtent gd.gbufferDesc.extent_2d],
          DispatchShape.compute
            (RtdgiRenderer.temporal_tex_desc gd.halfViewNormalDesc.extent_2d).extent⟩] ∧
      rg'.temporalQueries =
        rg.temporalQueries ++ [self.temporal_tex.name, self.cv_temporal_tex.name] ∧
      rg'.images = rg.images ++ imgs ++
        [(tf, (gd.gbufferDesc.half_res.withUsage ImageUsageFlags.empty).withFormat
            Format.R16G16B16A16_SFLOAT)] ∧
      rg'.nextId = tf + 1 ∧
      rg.nextId ≤ tf ∧
      tOut < tf ∧ tHist < tf ∧ cvOut < tf ∧ cvHist < tf ∧
      (tOut ∈ self.temporal_tex.slotIds ∨ rg.nextId ≤ tOut) ∧
      (tHist ∈ self.temporal_tex.slotIds ∨ rg.nextId ≤ tHist) ∧
      (cvOut ∈ self.cv_temporal_tex.slotIds ∨ rg.nextId ≤ cvOut) ∧
      (cvHist ∈ self.cv_temporal_tex.slotIds ∨ rg.nextId ≤ cvHist) ∧
      (self.temporal_tex.slotIds.Nodup → tOut ≠ tHist) ∧
      (self.cv_temporal_tex.slotIds.Nodup → cvOut ≠ cvHist) ∧
      ((self.temporal_tex.slotIds ++ self.cv_temporal_tex.slotIds).Nodup →
        tOut ≠ cvOut ∧ tOut ≠ cvHist ∧ tHist ≠ cvOut ∧ tHist ≠ cvHist) ∧
      self.temporal_tex.get_output_and_history rg
        (RtdgiRenderer.temporal_tex_desc gd.halfViewNormalDesc.extent_2d) =
        (tt, g1, tOut, tHist) ∧
      self.cv_temporal_tex.get_output_and_history g1
        (RtdgiRenderer.temporal_tex_desc gd.halfViewNormalDesc.extent_2d) =
        (cvt, g2, cvOut, cvHist) := by
  obtain ⟨p1, g1, tOut, tHist, imgs1, heq1, hname1, hpass1, himg1, hq1, hle1,
      houtlt1, hhistlt1, homem1, hhmem1, hne1⟩ :=
    get_output_and_history_char self.temporal_tex rg
      (RtdgiRenderer.temporal_tex_desc gd.halfViewNormalDesc.extent_2d) hltT
  obtain ⟨p2, g2, cvOut, cvHist, imgs2, heq2, hname2, hpass2, himg2, hq2, hle2,
      houtlt2, hhistlt2, homem2, hhmem2, hne2⟩ :=
    get_output_and_history_char self.cv_temporal_tex g1
      (RtdgiRenderer.temporal_tex_desc gd.halfViewNormalDesc.extent_2d)
      (fun i hi => lt_of_lt_of_le (hltC i hi) hle1)
  refine ⟨p1, p2,
    { nextId := g2.nextId + 1,
      images := g2.images ++
        [(g2.nextId, (gd.gbufferDesc.half_res.withUsage ImageUsageFlags.empty).withFormat
            Format.R16G16B16A16_SFLOAT)],
      passes := g2.passes ++
        [⟨"rtdgi temporal",
          [input_color, tHist, cvHist, reproj, gd.halfViewNormalId, gd.halfDepthId,
           cs.direct_cascade0, cs.indirect_cascade0],
          [tOut, cvOut, g2.nextId],
          [ConstParam.extentInvExtent
             (RtdgiRenderer.temporal_tex_desc gd.halfViewNormalDesc.extent_2d).extent_2d,
           ConstParam.extentInvExtent gd.gbufferDesc.extent_2d],
          DispatchShape.compute
            (RtdgiRenderer.temporal_tex_desc gd.halfViewNormalDesc.extent_2d).extent⟩],
      temporalQueries := g2.temporalQueries },
    tOut, tHist, cvOut, cvHist, imgs1 ++ imgs2, g2.nextId, g1, g2,
    ?_, hname1, hname2, ?_, ?_, ?_, rfl, ?_, ?_, ?_, ?_, ?_, homem1, hhmem1, ?_, ?_, hne1, hne2, ?_,
    heq1, heq2⟩
  · simp only [RtdgiRenderer.temporal, GbufferDepth.half_view_normal, GbufferDepth.half_depth]
    rw [heq1]
    simp only []
    rw [heq2]
    simp only [RenderGraph.create, RenderGraph.alloc, RenderGraph.addPass,
      SimpleRenderPass.new_compute, SimpleRenderPass.read, SimpleRenderPass.write,
      SimpleRenderPass.constants, SimpleRenderPass.dispatch]
    simp
  · simp [hpass2, hpass1]
  · simp [hq2, hq1]
  · simp [himg2, himg1]
  · omega
  · omega
  · omega
  · omega
  · omega
  · rcases homem2 with h | h
    · exact Or.inl h
    · exact Or.inr (hle1.trans h)
  · rcases hhmem2 with h | h
    · exact Or.inl h
    · exact Or.inr (hle1.trans h)
  · intro hnd
    rw [List.nodup_append] at hnd
    obtain ⟨hndT, hndC, hdisj⟩ := hnd
    have cross : ∀ x y, (x ∈ self.temporal_tex.slotIds ∨ rg.nextId ≤ x) → x < g1.nextId →
        (y ∈ self.cv_temporal_tex.slotIds ∨ g1.nextId ≤ y) → x ≠ y := by
      intro x y hx hxlt hy he
      subst he
      rcases hx with hx | hx <;> rcases hy with hy | hy
      · exact hdisj hx hy
      · have := hltT x hx
        omega
      · have := hltC x hy
        omega
      · omega
    exact ⟨cross tOut cvOut homem1 houtlt1 homem2,
           cross tOut cvHist homem1 houtlt1 hhmem2,
           cross tHist cvOut hhmem1 hhistlt1 homem2,
           cross tHist cvHist hhmem1 hhistlt1 hhmem2⟩

/-- The descriptor of the two trace hit images:
`gbuffer_desc.usage(empty).half_res().format(R16G16B16A16_SFLOAT)`. -/
def traceHitDesc (gd : GbufferDepth) : ImageDesc :=
  ((gd.gbufferDesc.withUsage ImageUsageFlags.empty).half_res).withFormat
    Format.R16G16B16A16_SFLOAT

/-- The descriptor used for temporal-store images and the spatial filter
output: `temporal_tex_desc(half_view_normal.extent)`. -/
def halfTexDesc (gd : GbufferDepth) : ImageDesc :=
  RtdgiRenderer.temporal_tex_desc gd.halfViewNormalDesc.extent_2d

/-- The descriptor of the temporally filtered working image:
`gbuffer.desc().half_res().usage(empty).format(R16G16B16A16_SFLOAT)`. -/
def temporalFilteredDesc (gd : GbufferDepth) : ImageDesc :=
  (gd.gbufferDesc.half_res.withUsage ImageUsageFlags.empty).withFormat
    Format.R16G16B16A16_SFLOAT

/-- The descriptor of the upsampled output:
`gbuffer.desc().format(R16G16B16A16_SFLOAT)`. -/
def upsampledDesc (gd : GbufferDepth) : ImageDesc :=
  gd.gbufferDesc.withFormat Format.R16G16B16A16_SFLOAT

/-- The graph state right after `render` has created the hit images, imported
the LUT buffers and declared the trace pass, before the temporal filter. -/
def renderMidGraph (g : RenderGraph) (gd : GbufferDepth) (sky_cube : Nat)
    (c : Csgi2Volume) (tlas : Nat) : RenderGraph :=
  { nextId := g.nextId + 5,
    images := g.images ++ [(g.nextId, traceHitDesc gd)] ++ [(g.nextId + 1, traceHitDesc gd)],
    passes := g.passes ++
      [⟨"rtdgi trace",
        [gd.gbufferId, gd.depthId, g.nextId + 2, g.nextId + 3, g.nextId + 4,
         c.direct_cascade0, c.indirect_cascade0, sky_cube],
        [g.nextId, g.nextId + 1],
        [ConstParam.extentInvExtent gd.gbufferDesc.extent_2d],
        DispatchShape.rays tlas (traceHitDesc gd).extent⟩],
    temporalQueries := g.temporalQueries }

theorem render_unfold (self : RtdgiRenderer) (g : RenderGraph) (gd : GbufferDepth)
    (reproj sky bset tlas : Nat) (c : Csgi2Volume) (ssao : Nat) :
    self.render g gd reproj sky bset tlas c ssao =
      (match self.temporal (renderMidGraph g gd sky c tlas) g.nextId gd reproj c with
       | (self', rgT, ftf) =>
         match RtdgiRenderer.spatial rgT ftf gd ssao with
         | (rgS, sf) =>
           match rgS.create (upsampledDesc gd) with
           | (rgU, uf) =>
             (self',
              rgU.addPass ⟨"rtdgi upsample",
                [sf, gd.depthId, gd.gbufferId, gd.halfViewNormalId, gd.halfDepthId, ssao],
                [uf],
                [ConstParam.extentInvExtent (upsampledDesc gd).extent_2d,
                 ConstParam.spatialResolveOffsets],
                DispatchShape.compute (upsampledDesc gd).extent⟩,
              (⟨uf⟩ : ReadOnlyHandle))) := by
  rfl

theorem render_char (self : RtdgiRenderer) (g : RenderGraph) (gd : GbufferDepth)
    (reproj sky bset tlas : Nat) (c : Csgi2Volume) (ssao : Nat)
    (hltT : ∀ i ∈ self.temporal_tex.slotIds, i < g.nextId)
    (hltC : ∀ i ∈ self.cv_temporal_tex.slotIds, i < g.nextId) :
    ∃ tt cvt tOut tHist cvOut cvHist imgs tf g' g1 g2,
      self.render g gd reproj sky bset tlas c ssao =
        ({ self with temporal_tex := tt, cv_temporal_tex := cvt }, g', ⟨tf + 2⟩) ∧
      tt.name = self.temporal_tex.name ∧
      cvt.name = self.cv_temporal_tex.name ∧
      g'.passes = g.passes ++
        [⟨"rtdgi trace",
          [gd.gbufferId, gd.depthId, g.nextId + 2, g.nextId + 3, g.nextId + 4,
           c.direct_cascade0, c.indirect_cascade0, sky],
          [g.nextId, g.nextId + 1],
          [ConstParam.extentInvExtent gd.gbufferDesc.extent_2d],
          DispatchShape.rays tlas (traceHitDesc gd).extent⟩,
         ⟨"rtdgi temporal",
          [g.nextId, tHist, cvHist, reproj, gd.halfViewNormalId, gd.halfDepthId,
           c.direct_cascade0, c.indirect_cascade0],
          [tOut, cvOut, tf],
          [ConstParam.extentInvExtent (halfTexDesc gd).extent_2d,
           ConstParam.extentInvExtent gd.gbufferDesc.extent_2d],
          DispatchShape.compute (halfTexDesc gd).extent⟩,
         ⟨"rtdgi spatial",
          [tf, gd.halfViewNormalId, gd.halfDepthId, ssao],
          [tf + 1],
          [ConstParam.extentInvExtent (halfTexDesc gd).extent_2d,
           ConstParam.spatialResolveOffsets],
          DispatchShape.compute (halfTexDesc gd).extent⟩,
         ⟨"rtdgi upsample",
          [tf + 1, gd.depthId, gd.gbufferId, gd.halfViewNormalId, gd.halfDepthId, ssao],
          [tf + 2],
          [ConstParam.extentInvExtent (upsampledDesc gd).extent_2d,
           ConstParam.spatialResolveOffsets],
          DispatchShape.compute (upsampledDesc gd).extent⟩] ∧
      g'.temporalQueries = g.temporalQueries ++
        [self.temporal_tex.name, self.cv_temporal_tex.name] ∧
      g'.images = g.images ++
        [(g.nextId, traceHitDesc gd), (g.nextId + 1, traceHitDesc gd)] ++ imgs ++
        [(tf, temporalFilteredDesc gd), (tf + 1, halfTexDesc gd), (tf + 2, upsampledDesc gd)] ∧
      g'.nextId = tf + 3 ∧
      g.nextId + 5 ≤ tf ∧
      tOut < tf ∧ tHist < tf ∧ cvOut < tf ∧ cvHist < tf ∧
      (tOut ∈ self.temporal_tex.slotIds ∨ g.nextId + 5 ≤ tOut) ∧
      (tHist ∈ self.temporal_tex.slotIds ∨ g.nextId + 5 ≤ tHist) ∧
      (cvOut ∈ self.cv_temporal_tex.slotIds ∨ g.nextId + 5 ≤ cvOut) ∧
      (cvHist ∈ self.cv_temporal_tex.slotIds ∨ g.nextId + 5 ≤ cvHist) ∧
      (self.temporal_tex.slotIds.Nodup → tOut ≠ tHist) ∧
      (self.cv_temporal_tex.slotIds.Nodup → cvOut ≠ cvHist) ∧
      ((self.temporal_tex.slotIds ++ self.cv_temporal_tex.slotIds).Nodup →
        tOut ≠ cvOut ∧ tOut ≠ cvHist ∧ tHist ≠ cvOut ∧ tHist ≠ cvHist) ∧
      self.temporal_tex.get_output_and_history (renderMidGraph g gd sky c tlas)
        (RtdgiRenderer.temporal_tex_desc gd.halfViewNormalDesc.extent_2d) =
        (tt, g1, tOut, tHist) ∧
      self.cv_temporal_tex.get_output_and_history g1
        (RtdgiRenderer.temporal_tex_desc gd.halfViewNormalDesc.extent_2d) =
        (cvt, g2, cvOut, cvHist) := by
  obtain ⟨tt, cvt, rgT, tOut, tHist, cvOut, cvHist, imgsPP, tf, gPP1, gPP2,
      heqT, hnameT, hnameC,
      hpassT, hqT, himgT, hnidT, hleT, hlt1, hlt2, hlt3, hlt4,
      hm1, hm2, hm3, hm4, hneT, hneC, hcross, heqPP1, heqPP2⟩ :=
    temporal_char self (renderMidGraph g gd sky c tlas) g.nextId gd reproj c
      (fun i hi => by
        have := hltT i hi
        simp only [renderMidGraph]
        omega)
      (fun i hi => by
        have := hltC i hi
        simp only [renderMidGraph]
        omega)
  simp [renderMidGraph] at hpassT hqT himgT hleT hm1 hm2 hm3 hm4
  refine ⟨tt, cvt, tOut, tHist, cvOut, cvHist, imgsPP, tf,
    { nextId := rgT.nextId + 1 + 1,
      images := rgT.images ++ [(rgT.nextId, halfTexDesc gd)] ++
        [(rgT.nextId + 1, upsampledDesc gd)],
      passes := rgT.passes ++
        [⟨"rtdgi spatial",
          [tf, gd.halfViewNormalId, gd.halfDepthId, ssao],
          [rgT.nextId],
          [ConstParam.extentInvExtent (halfTexDesc gd).extent_2d,
           ConstParam.spatialResolveOffsets],
          DispatchShape.compute (halfTexDesc gd).extent⟩] ++
        [⟨"rtdgi upsample",
          [rgT.nextId, gd.depthId, gd.gbufferId, gd.halfViewNormalId, gd.halfDepthId, ssao],
          [rgT.nextId + 1],
          [ConstParam.extentInvExtent (upsampledDesc gd).extent_2d,
           ConstParam.spatialResolveOffsets],
          DispatchShape.compute (upsampledDesc gd).extent⟩],
      temporalQueries := rgT.temporalQueries },
    gPP1, gPP2,
    ?_, hnameT, hnameC, ?_, ?_, ?_, ?_, ?_, ?_, ?_, ?_, ?_, ?_, ?_, ?_, ?_,
    hneT, hneC, hcross, heqPP1, heqPP2⟩
  · rw [render_unfold, heqT]
    simp only [RtdgiRenderer.spatial, GbufferDepth.half_view_normal, GbufferDepth.half_depth,
      RenderGraph.create, RenderGraph.alloc, RenderGraph.addPass,
      SimpleRenderPass.new_compute, SimpleRenderPass.read, SimpleRenderPass.write,
      SimpleRenderPass.constants, SimpleRenderPass.dispatch, halfTexDesc]
    rw [hnidT]
    simp
  · simp [hpassT, hnidT, halfTexDesc]
  · simp [hqT]
  · simp [himgT, hnidT, temporalFilteredDesc, halfTexDesc, upsampledDesc]
  · show rgT.nextId + 1 + 1 = tf + 3
    omega
  · omega
  · exact hlt1
  · exact hlt2
  · exact hlt3
  · exact hlt4
  · rcases hm1 with h | h
    · exact Or.inl h
    · exact Or.inr (by omega)
  · rcases hm2 with h | h
    · exact Or.inl h
    · exact Or.inr (by omega)
  · rcases hm3 with h | h
    · exact Or.inl h
    · exact Or.inr (by omega)
  · rcases hm4 with h | h
    · exact Or.inl h
    · exact Or.inr (by omega)

/-- The resource handles `render` receives from outside, together with the
two ping-pong stores' physical images. -/
def renderInputIds (self : RtdgiRenderer) (gd : GbufferDepth) (reproj sky : Nat)
    (c : Csgi2Volume) (ssao : Nat) : List Nat :=
  [gd.gbufferId, gd.depthId, gd.halfViewNormalId, gd.halfDepthId,
   reproj, sky, c.direct_cascade0, c.indirect_cascade0, ssao] ++
  self.temporal_tex.slotIds ++ self.cv_temporal_tex.slotIds

/-- Well-formed frame inputs: all externally supplied handles and the
ping-pong stores' physical images are pairwise distinct resources already
allocated in the graph (handle below the fresh-handle counter) — the
situation every real frame is in, since every handle comes from the one
graph allocator. -/
def renderInputsWF (self : RtdgiRenderer) (g : RenderGraph) (gd : GbufferDepth)
    (reproj sky : Nat) (c : Csgi2Volume) (ssao : Nat) : Prop :=
  (renderInputIds self gd reproj sky c ssao).Nodup ∧
  ∀ i ∈ renderInputIds self gd reproj sky c ssao, i < g.nextId

theorem renderInputsWF_sloT (self : RtdgiRenderer) (g : RenderGraph)
    (gd : GbufferDepth) (reproj sky : Nat) (c : Csgi2Volume) (ssao : Nat)
    (h : renderInputsWF self g gd reproj sky c ssao) :
    ∀ i ∈ self.temporal_tex.slotIds, i < g.nextId := by
  intro i hi
  exact h.2 i (by simp [renderInputIds, hi])

theorem renderInputsWF_sloC (self : RtdgiRenderer) (g : RenderGraph)
    (gd : GbufferDepth) (reproj sky : Nat) (c : Csgi2Volume) (ssao : Nat)
    (h : renderInputsWF self g gd reproj sky c ssao) :
    ∀ i ∈ self.cv_temporal_tex.slotIds, i < g.nextId := by
  intro i hi
  exact h.2 i (by simp [renderInputIds, hi])

/-- C1: For every call to render, the passes are composed in the order
Trace, then Temporal Filter, then Spatial Filter, then Upsample: the
temporal filter pass consumes the trace stage's output, the spatial filter
pass consumes the temporal filter's filtered output, the upsample pass
consumes the spatial filter's output, and render's return value is the
upsample pass's output. -/
theorem render_composes_trace_temporal_spatial_upsample
    (self : RtdgiRenderer) (g : RenderGraph) (gd : GbufferDepth)
    (reproj sky bset tlas : Nat) (c : Csgi2Volume) (ssao : Nat)
    (hltT : ∀ i ∈ self.temporal_tex.slotIds, i < g.nextId)
    (hltC : ∀ i ∈ self.cv_temporal_tex.slotIds, i < g.nextId) :
    ∃ tracep temporalp spatialp upsamplep,
      (self.render g gd reproj sky bset tlas c ssao).2.1.passes =
        g.passes ++ [tracep, temporalp, spatialp, upsamplep] ∧
      tracep.name = "rtdgi trace" ∧ temporalp.name = "rtdgi temporal" ∧
      spatialp.name = "rtdgi spatial" ∧ upsamplep.name = "rtdgi upsample" ∧
      (∃ h0, tracep.writes.head? = some h0 ∧ temporalp.reads.head? = some h0) ∧
      (∃ tfil, temporalp.writes.getLast? = some tfil ∧
        spatialp.reads.head? = some tfil) ∧
      (∃ sfil, spatialp.writes = [sfil] ∧ upsamplep.reads.head? = some sfil) ∧
      (∃ u, upsamplep.writes = [u] ∧
        (self.render g gd reproj sky bset tlas c ssao).2.2 = ⟨u⟩) := by
  obtain ⟨tt, cvt, tOut, tHist, cvOut, cvHist, imgs, tf, g', g1, g2, heq, -, -,
      hpasses, -, -, -, -, -, -, -, -, -, -, -, -, -, -, -, -, -⟩ :=
    render_char self g gd reproj sky bset tlas c ssao hltT hltC
  rw [heq]
  refine ⟨_, _, _, _, hpasses, rfl, rfl, rfl, rfl,
    ⟨g.nextId, rfl, rfl⟩, ⟨tf, rfl, rfl⟩, ⟨tf + 1, rfl, rfl⟩, ⟨tf + 2, rfl, rfl⟩⟩

/-- A concrete frame setup used to witness the render theorems: distinct
externally owned handles 0–9, a graph whose allocator starts at 10, and a
freshly constructed renderer (no temporal slots allocated yet). -/
def testGd : GbufferDepth :=
  ⟨0, ⟨Format.other 7, ⟨1920, 1080⟩, ⟨true, false⟩⟩, 1, 2,
   ⟨Format.other 8, ⟨960, 540⟩, ImageUsageFlags.empty⟩, 3⟩

def testG0 : RenderGraph := ⟨10, [], [], []⟩

def testBuf : Buffer := ⟨⟨4, BufferUsage.STORAGE_BUFFER⟩, [0, 0, 0, 0]⟩

def testSelf : RtdgiRenderer :=
  ⟨⟨"rtdgi.final", none, false⟩, ⟨"rtdgi.cv", none, false⟩, testBuf, testBuf, testBuf⟩

def testCsgi : Csgi2Volume := ⟨7, 8⟩

/-- Witness for C1 at the concrete frame setup. -/
theorem render_composes_trace_temporal_spatial_upsample_witness :
    (∀ i ∈ testSelf.temporal_tex.slotIds, i < testG0.nextId) ∧
    (∀ i ∈ testSelf.cv_temporal_tex.slotIds, i < testG0.nextId) ∧
    (∃ tracep temporalp spatialp upsamplep,
      (testSelf.render testG0 testGd 4 5 0 9 testCsgi 6).2.1.passes =
        testG0.passes ++ [tracep, temporalp, spatialp, upsamplep] ∧
      tracep.name = "rtdgi trace" ∧ temporalp.name = "rtdgi temporal" ∧
      spatialp.name = "rtdgi spatial" ∧ upsamplep.name = "rtdgi upsample" ∧
      (∃ h0, tracep.writes.head? = some h0 ∧ temporalp.reads.head? = some h0) ∧
      (∃ tfil, temporalp.writes.getLast? = some tfil ∧
        spatialp.reads.head? = some tfil) ∧
      (∃ sfil, spatialp.writes = [sfil] ∧ upsamplep.reads.head? = some sfil) ∧
      (∃ u, upsamplep.writes = [u] ∧
        (testSelf.render testG0 testGd 4 5 0 9 testCsgi 6).2.2 = ⟨u⟩)) :=
  ⟨by decide, by decide,
   render_composes_trace_temporal_spatial_upsample testSelf testG0 testGd 4 5 0 9
     testCsgi 6 (by decide) (by decide)⟩

/-- C2: For every call to the temporal filter stage, its pass declares as
reads exactly the raw trace output, the main store's history image, the
control-variate store's history image, the reprojection map, the
half-resolution normal and depth images, and the two radiance cascades, and
declares as writes exactly the main store's updated output image, the
control-variate store's updated output image, and a temporally filtered
color image that is a distinct resource from both persisted outputs.  The
history/output handles are pinned as the very pair returned by querying
`temporal_tex` and then `cv_temporal_tex` at the graph state following the
trace declaration, and the updated stores are the ones persisted in the
renderer render returns. -/
theorem temporal_pass_reads_writes_exact
    (self : RtdgiRenderer) (g : RenderGraph) (gd : GbufferDepth)
    (reproj sky bset tlas : Nat) (c : Csgi2Volume) (ssao : Nat)
    (hltT : ∀ i ∈ self.temporal_tex.slotIds, i < g.nextId)
    (hltC : ∀ i ∈ self.cv_temporal_tex.slotIds, i < g.nextId) :
    ∃ tracep temporalp spatialp upsamplep tt cvt g1 g2 hit0 tOut tHist cvOut cvHist tfil,
      (self.render g gd reproj sky bset tlas c ssao).2.1.passes =
        g.passes ++ [tracep, temporalp, spatialp, upsamplep] ∧
      temporalp.name = "rtdgi temporal" ∧
      tracep.writes.head? = some hit0 ∧
      self.temporal_tex.get_output_and_history (renderMidGraph g gd sky c tlas)
        (RtdgiRenderer.temporal_tex_desc gd.halfViewNormalDesc.extent_2d) =
        (tt, g1, tOut, tHist) ∧
      self.cv_temporal_tex.get_output_and_history g1
        (RtdgiRenderer.temporal_tex_desc gd.halfViewNormalDesc.extent_2d) =
        (cvt, g2, cvOut, cvHist) ∧
      (self.render g gd reproj sky bset tlas c ssao).1 =
        { self with temporal_tex := tt, cv_temporal_tex := cvt } ∧
      temporalp.reads = [hit0, tHist, cvHist, reproj, gd.halfViewNormalId,
        gd.halfDepthId, c.direct_cascade0, c.indirect_cascade0] ∧
      temporalp.writes = [tOut, cvOut, tfil] ∧
      tfil ≠ tOut ∧ tfil ≠ cvOut := by
  obtain ⟨tt, cvt, tOut, tHist, cvOut, cvHist, imgs, tf, g', g1, g2, heq, -, -,
      hpasses, -, -, -, -, hlt1, -, hlt3, -, -, -, -, -, -, -, -, hq1, hq2⟩ :=
    render_char self g gd reproj sky bset tlas c ssao hltT hltC
  rw [heq]
  exact ⟨_, _, _, _, tt, cvt, g1, g2, g.nextId, tOut, tHist, cvOut, cvHist, tf,
    hpasses, rfl, rfl, hq1, hq2, rfl, rfl, rfl, by omega, by omega⟩

/-- Witness for C2 at the concrete frame setup. -/
theorem temporal_pass_reads_writes_exact_witness :
    (∀ i ∈ testSelf.temporal_tex.slotIds, i < testG0.nextId) ∧
    (∀ i ∈ testSelf.cv_temporal_tex.slotIds, i < testG0.nextId) ∧
    (∃ tracep temporalp spatialp upsamplep tt cvt g1 g2 hit0 tOut tHist cvOut cvHist tfil,
      (testSelf.render testG0 testGd 4 5 0 9 testCsgi 6).2.1.passes =
        testG0.passes ++ [tracep, temporalp, spatialp, upsamplep] ∧
      temporalp.name = "rtdgi temporal" ∧
      tracep.writes.head? = some hit0 ∧
      testSelf.temporal_tex.get_output_and_history (renderMidGraph testG0 testGd 5 testCsgi 9)
        (RtdgiRenderer.temporal_tex_desc testGd.halfViewNormalDesc.extent_2d) =
        (tt, g1, tOut, tHist) ∧
      testSelf.cv_temporal_tex.get_output_and_history g1
        (RtdgiRenderer.temporal_tex_desc testGd.halfViewNormalDesc.extent_2d) =
        (cvt, g2, cvOut, cvHist) ∧
      (testSelf.render testG0 testGd 4 5 0 9 testCsgi 6).1 =
        { testSelf with temporal_tex := tt, cv_temporal_tex := cvt } ∧
      temporalp.reads = [hit0, tHist, cvHist, 4, testGd.halfViewNormalId,
        testGd.halfDepthId, testCsgi.direct_cascade0, testCsgi.indirect_cascade0] ∧
      temporalp.writes = [tOut, cvOut, tfil] ∧
      tfil ≠ tOut ∧ tfil ≠ cvOut) :=
  ⟨by decide, by decide,
   temporal_pass_reads_writes_exact testSelf testG0 testGd 4 5 0 9 testCsgi 6
     (by decide) (by decide)⟩

/-- C3: The kernel-offset table passed as a constant to the spatial filter
pass and the one passed to the upsample pass are the identical value, sourced
from one shared constant, for every call to render. -/
theorem spatial_upsample_share_offset_table
    (self : RtdgiRenderer) (g : RenderGraph) (gd : GbufferDepth)
    (reproj sky bset tlas : Nat) (c : Csgi2Volume) (ssao : Nat)
    (hltT : ∀ i ∈ self.temporal_tex.slotIds, i < g.nextId)
    (hltC : ∀ i ∈ self.cv_temporal_tex.slotIds, i < g.nextId) :
    ∃ tracep temporalp spatialp upsamplep,
      (self.render g gd reproj sky bset tlas c ssao).2.1.passes =
        g.passes ++ [tracep, temporalp, spatialp, upsamplep] ∧
      spatialp.name = "rtdgi spatial" ∧ upsamplep.name = "rtdgi upsample" ∧
      spatialp.consts.getLast? = upsamplep.consts.getLast? ∧
      spatialp.consts.getLast? = some ConstParam.spatialResolveOffsets := by
  obtain ⟨tt, cvt, tOut, tHist, cvOut, cvHist, imgs, tf, g', g1, g2, heq, -, -,
      hpasses, -, -, -, -, -, -, -, -, -, -, -, -, -, -, -, -, -⟩ :=
    render_char self g gd reproj sky bset tlas c ssao hltT hltC
  rw [heq]
  exact ⟨_, _, _, _, hpasses, rfl, rfl, rfl, rfl⟩

/-- Witness for C3 at the concrete frame setup. -/
theorem spatial_upsample_share_offset_table_witness :
    (∀ i ∈ testSelf.temporal_tex.slotIds, i < testG0.nextId) ∧
    (∀ i ∈ testSelf.cv_temporal_tex.slotIds, i < testG0.nextId) ∧
    (∃ tracep temporalp spatialp upsamplep,
      (testSelf.render testG0 testGd 4 5 0 9 testCsgi 6).2.1.passes =
        testG0.passes ++ [tracep, temporalp, spatialp, upsamplep] ∧
      spatialp.name = "rtdgi spatial" ∧ upsamplep.name = "rtdgi upsample" ∧
      spatialp.consts.getLast? = upsamplep.consts.getLast? ∧
      spatialp.consts.getLast? = some ConstParam.spatialResolveOffsets) :=
  ⟨by decide, by decide,
   spatial_upsample_share_offset_table testSelf testG0 testGd 4 5 0 9 testCsgi 6
     (by decide) (by decide)⟩

/-- C4: For every call to render, the second trace output image (hit1) is
written by the trace pass but never declared as a read by any subsequent
pass in this core; only the first trace output (hit0) is passed to the
temporal filter, so the returned image's dataflow depends on hit0 alone
among the two trace outputs. -/
theorem trace_hit1_never_read
    (self : RtdgiRenderer) (g : RenderGraph) (gd : GbufferDepth)
    (reproj sky bset tlas : Nat) (c : Csgi2Volume) (ssao : Nat)
    (hwf : renderInputsWF self g gd reproj sky c ssao) :
    ∃ tracep temporalp spatialp upsamplep hit0 hit1,
      (self.render g gd reproj sky bset tlas c ssao).2.1.passes =
        g.passes ++ [tracep, temporalp, spatialp, upsamplep] ∧
      tracep.name = "rtdgi trace" ∧
      tracep.writes = [hit0, hit1] ∧
      temporalp.reads.head? = some hit0 ∧
      hit1 ∉ temporalp.reads ∧ hit1 ∉ spatialp.reads ∧ hit1 ∉ upsamplep.reads := by
  have hltT := renderInputsWF_sloT _ _ _ _ _ _ _ hwf
  have hltC := renderInputsWF_sloC _ _ _ _ _ _ _ hwf
  obtain ⟨tt, cvt, tOut, tHist, cvOut, cvHist, imgs, tf, g', g1, g2, heq, -, -,
      hpasses, -, -, -, hleT, hlt1, hlt2, hlt3, hlt4,
      hm1, hm2, hm3, hm4, -, -, -, -, -⟩ :=
    render_char self g gd reproj sky bset tlas c ssao hltT hltC
  rw [heq]
  have hrj : reproj < g.nextId := hwf.2 _ (by simp [renderInputIds])
  have hvn : gd.halfViewNormalId < g.nextId := hwf.2 _ (by simp [renderInputIds])
  have hhd : gd.halfDepthId < g.nextId := hwf.2 _ (by simp [renderInputIds])
  have hdc : c.direct_cascade0 < g.nextId := hwf.2 _ (by simp [renderInputIds])
  have hic : c.indirect_cascade0 < g.nextId := hwf.2 _ (by simp [renderInputIds])
  have hsa : ssao < g.nextId := hwf.2 _ (by simp [renderInputIds])
  have hdp : gd.depthId < g.nextId := hwf.2 _ (by simp [renderInputIds])
  have hgb : gd.gbufferId < g.nextId := hwf.2 _ (by simp [renderInputIds])
  have hbT : tHist < g.nextId ∨ g.nextId + 5 ≤ tHist := hm2.imp (fun h => hltT _ h) id
  have hbC : cvHist < g.nextId ∨ g.nextId + 5 ≤ cvHist := hm4.imp (fun h => hltC _ h) id
  refine ⟨_, _, _, _, g.nextId, g.nextId + 1, hpasses, rfl, rfl, rfl, ?_, ?_, ?_⟩
  · rcases hbT with h1 | h1 <;> rcases hbC with h2 | h2 <;> simp <;> omega
  · simp
    omega
  · simp
    omega

/-- Witness for C4 at the concrete frame setup. -/
theorem trace_hit1_never_read_witness :
    renderInputsWF testSelf testG0 testGd 4 5 testCsgi 6 ∧
    (∃ tracep temporalp spatialp upsamplep hit0 hit1,
      (testSelf.render testG0 testGd 4 5 0 9 testCsgi 6).2.1.passes =
        testG0.passes ++ [tracep, temporalp, spatialp, upsamplep] ∧
      tracep.name = "rtdgi trace" ∧
      tracep.writes = [hit0, hit1] ∧
      temporalp.reads.head? = some hit0 ∧
      hit1 ∉ temporalp.reads ∧ hit1 ∉ spatialp.reads ∧ hit1 ∉ upsamplep.reads) :=
  ⟨by unfold renderInputsWF; decide,
   trace_hit1_never_read testSelf testG0 testGd 4 5 0 9 testCsgi 6
     (by unfold renderInputsWF; decide)⟩

/-- C6: The renderer holds exactly two temporal slot pairs — one for the
final filtered radiance ("rtdgi.final") and one for the control-variate
channel ("rtdgi.cv") — which never share physical storage, and in every
frame each is queried once for its own output/history pair. -/
theorem temporal_stores_never_alias
    (self : RtdgiRenderer) (g : RenderGraph) (gd : GbufferDepth)
    (reproj sky bset tlas : Nat) (c : Csgi2Volume) (ssao : Nat)
    (hwf : renderInputsWF self g gd reproj sky c ssao)
    (hnF : self.temporal_tex.name = "rtdgi.final")
    (hnC : self.cv_temporal_tex.name = "rtdgi.cv") :
    ∃ tt cvt g' res tracep temporalp spatialp upsamplep hit0 tOut tHist cvOut cvHist tfil,
      self.render g gd reproj sky bset tlas c ssao =
        ({ self with temporal_tex := tt, cv_temporal_tex := cvt }, g', res) ∧
      tt.name = "rtdgi.final" ∧ cvt.name = "rtdgi.cv" ∧
      g'.temporalQueries = g.temporalQueries ++ ["rtdgi.final", "rtdgi.cv"] ∧
      g'.passes = g.passes ++ [tracep, temporalp, spatialp, upsamplep] ∧
      temporalp.reads = [hit0, tHist, cvHist, reproj, gd.halfViewNormalId,
        gd.halfDepthId, c.direct_cascade0, c.indirect_cascade0] ∧
      temporalp.writes = [tOut, cvOut, tfil] ∧
      [tOut, tHist, cvOut, cvHist].Nodup := by
  have hltT := renderInputsWF_sloT _ _ _ _ _ _ _ hwf
  have hltC := renderInputsWF_sloC _ _ _ _ _ _ _ hwf
  obtain ⟨tt, cvt, tOut, tHist, cvOut, cvHist, imgs, tf, g', g1, g2, heq, hnameT, hnameC,
      hpasses, hqueries, -, -, -, -, -, -, -, -, -, -, -, hneT, hneC, hcross, -, -⟩ :=
    render_char self g gd reproj sky bset tlas c ssao hltT hltC
  have hndMC : (self.temporal_tex.slotIds ++ self.cv_temporal_tex.slotIds).Nodup := by
    have h := hwf.1
    rw [renderInputIds, List.append_assoc] at h
    exact h.of_append_right
  have hndM : self.temporal_tex.slotIds.Nodup := hndMC.of_append_left
  have hndC : self.cv_temporal_tex.slotIds.Nodup := hndMC.of_append_right
  obtain ⟨hc1, hc2, hc3, hc4⟩ := hcross hndMC
  refine ⟨tt, cvt, g', ⟨tf + 2⟩, _, _, _, _, g.nextId, tOut, tHist, cvOut, cvHist, tf,
    heq, hnameT.trans hnF, hnameC.trans hnC, ?_, hpasses, rfl, rfl, ?_⟩
  · rw [hqueries, hnF, hnC]
  · simp only [List.nodup_cons, List.mem_cons, List.mem_singleton, List.not_mem_nil,
      not_false_eq_true, and_true, List.nodup_nil, not_or]
    exact ⟨⟨hneT hndM, hc1, hc2⟩, ⟨hc3, hc4⟩, hneC hndC⟩

/-- Witness for C6 at the concrete frame setup. -/
theorem temporal_stores_never_alias_witness :
    renderInputsWF testSelf testG0 testGd 4 5 testCsgi 6 ∧
    testSelf.temporal_tex.name = "rtdgi.final" ∧
    testSelf.cv_temporal_tex.name = "rtdgi.cv" ∧
    (∃ tt cvt g' res tracep temporalp spatialp upsamplep hit0 tOut tHist cvOut cvHist tfil,
      testSelf.render testG0 testGd 4 5 0 9 testCsgi 6 =
        ({ testSelf with temporal_tex := tt, cv_temporal_tex := cvt }, g', res) ∧
      tt.name = "rtdgi.final" ∧ cvt.name = "rtdgi.cv" ∧
      g'.temporalQueries = testG0.temporalQueries ++ ["rtdgi.final", "rtdgi.cv"] ∧
      g'.passes = testG0.passes ++ [tracep, temporalp, spatialp, upsamplep] ∧
      temporalp.reads = [hit0, tHist, cvHist, 4, testGd.halfViewNormalId,
        testGd.halfDepthId, testCsgi.direct_cascade0, testCsgi.indirect_cascade0] ∧
      temporalp.writes = [tOut, cvOut, tfil] ∧
      [tOut, tHist, cvOut, cvHist].Nodup) :=
  ⟨by unfold renderInputsWF; decide, rfl, rfl,
   temporal_stores_never_alias testSelf testG0 testGd 4 5 0 9 testCsgi 6
     (by unfold renderInputsWF; decide) rfl rfl⟩

/-- C7: For every pass declared by this core (trace, temporal filter,
spatial filter, upsample), the set of resources the pass declares as writes
is disjoint from the set it declares as reads — no single resource appears
in both the read list and the write list of the same pass. -/
theorem pass_writes_disjoint_from_reads
    (self : RtdgiRenderer) (g : RenderGraph) (gd : GbufferDepth)
    (reproj sky bset tlas : Nat) (c : Csgi2Volume) (ssao : Nat)
    (hwf : renderInputsWF self g gd reproj sky c ssao) :
    ∃ tracep temporalp spatialp upsamplep,
      (self.render g gd reproj sky bset tlas c ssao).2.1.passes =
        g.passes ++ [tracep, temporalp, spatialp, upsamplep] ∧
      tracep.name = "rtdgi trace" ∧ temporalp.name = "rtdgi temporal" ∧
      spatialp.name = "rtdgi spatial" ∧ upsamplep.name = "rtdgi upsample" ∧
      (∀ p ∈ [tracep, temporalp, spatialp, upsamplep],
        ∀ w ∈ p.writes, w ∉ p.reads) := by
  have hltT := renderInputsWF_sloT _ _ _ _ _ _ _ hwf
  have hltC := renderInputsWF_sloC _ _ _ _ _ _ _ hwf
  obtain ⟨tt, cvt, tOut, tHist, cvOut, cvHist, imgs, tf, g', g1, g2, heq, -, -,
      hpasses, -, -, -, hleT, hlt1, hlt2, hlt3, hlt4,
      hm1, hm2, hm3, hm4, hneT, hneC, hcross, -, -⟩ :=
    render_char self g gd reproj sky bset tlas c ssao hltT hltC
  rw [heq]
  have hrj : reproj < g.nextId := hwf.2 _ (by simp [renderInputIds])
  have hvn : gd.halfViewNormalId < g.nextId := hwf.2 _ (by simp [renderInputIds])
  have hhd : gd.halfDepthId < g.nextId := hwf.2 _ (by simp [renderInputIds])
  have hdc : c.direct_cascade0 < g.nextId := hwf.2 _ (by simp [renderInputIds])
  have hic : c.indirect_cascade0 < g.nextId := hwf.2 _ (by simp [renderInputIds])
  have hsa : ssao < g.nextId := hwf.2 _ (by simp [renderInputIds])
  have hdp : gd.depthId < g.nextId := hwf.2 _ (by simp [renderInputIds])
  have hgb : gd.gbufferId < g.nextId := hwf.2 _ (by simp [renderInputIds])
  have hsk : sky < g.nextId := hwf.2 _ (by simp [renderInputIds])
  have hndMC : (self.temporal_tex.slotIds ++ self.cv_temporal_tex.slotIds).Nodup := by
    have h := hwf.1
    rw [renderInputIds, List.append_assoc] at h
    exact h.of_append_right
  have hndM : self.temporal_tex.slotIds.Nodup := hndMC.of_append_left
  have hndC : self.cv_temporal_tex.slotIds.Nodup := hndMC.of_append_right
  obtain ⟨hc1, hc2, hc3, hc4⟩ := hcross hndMC
  have hdisjE : ∀ x ∈ self.temporal_tex.slotIds ++ self.cv_temporal_tex.slotIds,
      ∀ e ∈ [gd.gbufferId, gd.depthId, gd.halfViewNormalId, gd.halfDepthId,
             reproj, sky, c.direct_cascade0, c.indirect_cascade0, ssao], x ≠ e := by
    have h := hwf.1
    rw [renderInputIds, List.append_assoc, List.nodup_append] at h
    intro x hx e he heq
    exact h.2.2 he (heq ▸ hx)
  have hvoutE : ∀ e ∈ [gd.gbufferId, gd.depthId, gd.halfViewNormalId, gd.halfDepthId,
      reproj, sky, c.direct_cascade0, c.indirect_cascade0, ssao], tOut ≠ e := by
    intro e he
    rcases hm1 with h | h
    · exact hdisjE tOut (List.mem_append_left _ h) e he
    · have hee := hwf.2 e (List.mem_append_left _ (List.mem_append_left _ he))
      omega
  have hcvoutE : ∀ e ∈ [gd.gbufferId, gd.depthId, gd.halfViewNormalId, gd.halfDepthId,
      reproj, sky, c.direct_cascade0, c.indirect_cascade0, ssao], cvOut ≠ e := by
    intro e he
    rcases hm3 with h | h
    · exact hdisjE cvOut (List.mem_append_right _ h) e he
    · have hee := hwf.2 e (List.mem_append_left _ (List.mem_append_left _ he))
      omega
  have hbT : tHist < g.nextId ∨ g.nextId + 5 ≤ tHist := hm2.imp (fun h => hltT _ h) id
  have hbC : cvHist < g.nextId ∨ g.nextId + 5 ≤ cvHist := hm4.imp (fun h => hltC _ h) id
  have hbO : tOut < g.nextId ∨ g.nextId + 5 ≤ tOut := hm1.imp (fun h => hltT _ h) id
  have hbV : cvOut < g.nextId ∨ g.nextId + 5 ≤ cvOut := hm3.imp (fun h => hltC _ h) id
  refine ⟨_, _, _, _, hpasses, rfl, rfl, rfl, rfl, ?_⟩
  intro p hp
  simp only [List.mem_cons, List.not_mem_nil, or_false] at hp
  rcases hp with rfl | rfl | rfl | rfl
  · intro w hw
    simp only [List.mem_cons, List.not_mem_nil, or_false] at hw
    rcases hw with rfl | rfl <;> simp <;> omega
  · intro w hw
    simp only [List.mem_cons, List.not_mem_nil, or_false] at hw
    simp only [List.mem_cons, List.not_mem_nil, or_false, not_or]
    rcases hw with rfl | rfl | rfl
    · exact ⟨by rcases hbO with h | h <;> omega,
        hneT hndM, hc2,
        hvoutE reproj (by simp), hvoutE gd.halfViewNormalId (by simp),
        hvoutE gd.halfDepthId (by simp), hvoutE c.direct_cascade0 (by simp),
        hvoutE c.indirect_cascade0 (by simp)⟩
    · exact ⟨by rcases hbV with h | h <;> omega,
        Ne.symm hc3, hneC hndC,
        hcvoutE reproj (by simp), hcvoutE gd.halfViewNormalId (by simp),
        hcvoutE gd.halfDepthId (by simp), hcvoutE c.direct_cascade0 (by simp),
        hcvoutE c.indirect_cascade0 (by simp)⟩
    · exact ⟨by omega, by omega, by omega, by omega, by omega, by omega, by omega, by omega⟩
  · intro w hw
    simp only [List.mem_cons, List.not_mem_nil, or_false] at hw
    rcases hw with rfl <;> simp <;> omega
  · intro w hw
    simp only [List.mem_cons, List.not_mem_nil, or_false] at hw
    rcases hw with rfl <;> simp <;> omega

/-- Witness for C7 at the concrete frame setup. -/
theorem pass_writes_disjoint_from_reads_witness :
    renderInputsWF testSelf testG0 testGd 4 5 testCsgi 6 ∧
    (∃ tracep temporalp spatialp upsamplep,
      (testSelf.render testG0 testGd 4 5 0 9 testCsgi 6).2.1.passes =
        testG0.passes ++ [tracep, temporalp, spatialp, upsamplep] ∧
      tracep.name = "rtdgi trace" ∧ temporalp.name = "rtdgi temporal" ∧
      spatialp.name = "rtdgi spatial" ∧ upsamplep.name = "rtdgi upsample" ∧
      (∀ p ∈ [tracep, temporalp, spatialp, upsamplep],
        ∀ w ∈ p.writes, w ∉ p.reads)) :=
  ⟨by unfold renderInputsWF; decide,
   pass_writes_disjoint_from_reads testSelf testG0 testGd 4 5 0 9 testCsgi 6
     (by unfold renderInputsWF; decide)⟩

/-- C9: For every call to render, the trace pass produces exactly two
half-resolution images (hit0 and hit1), each with extent equal to the
integer-halved G-buffer extent and format R16G16B16A16_SFLOAT, and the ray
dispatch extent equals that half-resolution extent. -/
theorem trace_produces_two_half_res_images
    (self : RtdgiRenderer) (g : RenderGraph) (gd : GbufferDepth)
    (reproj sky bset tlas : Nat) (c : Csgi2Volume) (ssao : Nat)
    (hltT : ∀ i ∈ self.temporal_tex.slotIds, i < g.nextId)
    (hltC : ∀ i ∈ self.cv_temporal_tex.slotIds, i < g.nextId) :
    ∃ tracep temporalp spatialp upsamplep hit0 hit1 d,
      (self.render g gd reproj sky bset tlas c ssao).2.1.passes =
        g.passes ++ [tracep, temporalp, spatialp, upsamplep] ∧
      tracep.name = "rtdgi trace" ∧
      tracep.writes = [hit0, hit1] ∧
      hit0 ≠ hit1 ∧
      (hit0, d) ∈ (self.render g gd reproj sky bset tlas c ssao).2.1.images ∧
      (hit1, d) ∈ (self.render g gd reproj sky bset tlas c ssao).2.1.images ∧
      d.extent = ⟨gd.gbufferDesc.extent.width / 2, gd.gbufferDesc.extent.height / 2⟩ ∧
      d.format = Format.R16G16B16A16_SFLOAT ∧
      tracep.dispatch = DispatchShape.rays tlas d.extent := by
  obtain ⟨tt, cvt, tOut, tHist, cvOut, cvHist, imgs, tf, g', g1, g2, heq, -, -,
      hpasses, -, himages, -, -, -, -, -, -, -, -, -, -, -, -, -, -, -⟩ :=
    render_char self g gd reproj sky bset tlas c ssao hltT hltC
  rw [heq]
  refine ⟨_, _, _, _, g.nextId, g.nextId + 1, traceHitDesc gd,
    hpasses, rfl, rfl, by omega, ?_, ?_, rfl, rfl, rfl⟩
  · rw [himages]
    simp
  · rw [himages]
    simp

/-- Witness for C9 at the concrete frame setup. -/
theorem trace_produces_two_half_res_images_witness :
    (∀ i ∈ testSelf.temporal_tex.slotIds, i < testG0.nextId) ∧
    (∀ i ∈ testSelf.cv_temporal_tex.slotIds, i < testG0.nextId) ∧
    (∃ tracep temporalp spatialp upsamplep hit0 hit1 d,
      (testSelf.render testG0 testGd 4 5 0 9 testCsgi 6).2.1.passes =
        testG0.passes ++ [tracep, temporalp, spatialp, upsamplep] ∧
      tracep.name = "rtdgi trace" ∧
      tracep.writes = [hit0, hit1] ∧
      hit0 ≠ hit1 ∧
      (hit0, d) ∈ (testSelf.render testG0 testGd 4 5 0 9 testCsgi 6).2.1.images ∧
      (hit1, d) ∈ (testSelf.render testG0 testGd 4 5 0 9 testCsgi 6).2.1.images ∧
      d.extent = ⟨testGd.gbufferDesc.extent.width / 2, testGd.gbufferDesc.extent.height / 2⟩ ∧
      d.format = Format.R16G16B16A16_SFLOAT ∧
      tracep.dispatch = DispatchShape.rays 9 d.extent) :=
  ⟨by decide, by decide,
   trace_produces_two_half_res_images testSelf testG0 testGd 4 5 0 9 testCsgi 6
     (by decide) (by decide)⟩

/-- C10: render returns a full-resolution image (extent equal to the
G-buffer extent, not halved) exposed as a read-only handle — the returned
value is the read-only conversion of the upsample pass's output, and the
model's pass builder declares writes only through writable handles. -/
theorem render_returns_full_res_read_only
    (self : RtdgiRenderer) (g : RenderGraph) (gd : GbufferDepth)
    (reproj sky bset tlas : Nat) (c : Csgi2Volume) (ssao : Nat)
    (hltT : ∀ i ∈ self.temporal_tex.slotIds, i < g.nextId)
    (hltC : ∀ i ∈ self.cv_temporal_tex.slotIds, i < g.nextId) :
    ∃ u d tracep temporalp spatialp upsamplep,
      (self.render g gd reproj sky bset tlas c ssao).2.2 = Handle.into ⟨u⟩ ∧
      (u, d) ∈ (self.render g gd reproj sky bset tlas c ssao).2.1.images ∧
      d.extent = gd.gbufferDesc.extent ∧
      (self.render g gd reproj sky bset tlas c ssao).2.1.passes =
        g.passes ++ [tracep, temporalp, spatialp, upsamplep] ∧
      upsamplep.name = "rtdgi upsample" ∧
      upsamplep.writes = [u] := by
  obtain ⟨tt, cvt, tOut, tHist, cvOut, cvHist, imgs, tf, g', g1, g2, heq, -, -,
      hpasses, -, himages, -, -, -, -, -, -, -, -, -, -, -, -, -, -, -⟩ :=
    render_char self g gd reproj sky bset tlas c ssao hltT hltC
  rw [heq]
  refine ⟨tf + 2, upsampledDesc gd, _, _, _, _, rfl, ?_, rfl, hpasses, rfl, rfl⟩
  rw [himages]
  simp

/-- Witness for C10 at the concrete frame setup. -/
theorem render_returns_full_res_read_only_witness :
    (∀ i ∈ testSelf.temporal_tex.slotIds, i < testG0.nextId) ∧
    (∀ i ∈ testSelf.cv_temporal_tex.slotIds, i < testG0.nextId) ∧
    (∃ u d tracep temporalp spatialp upsamplep,
      (testSelf.render testG0 testGd 4 5 0 9 testCsgi 6).2.2 = Handle.into ⟨u⟩ ∧
      (u, d) ∈ (testSelf.render testG0 testGd 4 5 0 9 testCsgi 6).2.1.images ∧
      d.extent = testGd.gbufferDesc.extent ∧
      (testSelf.render testG0 testGd 4 5 0 9 testCsgi 6).2.1.passes =
        testG0.passes ++ [tracep, temporalp, spatialp, upsamplep] ∧
      upsamplep.name = "rtdgi upsample" ∧
      upsamplep.writes = [u]) :=
  ⟨by decide, by decide,
   render_returns_full_res_read_only testSelf testG0 testGd 4 5 0 9 testCsgi 6
     (by decide) (by decide)⟩

/-- Characterization of a successful `new`: exactly when all three LUT
buffer creations succeed, and then the renderer holds those buffers and the
two freshly named temporal stores. -/
theorem new_eq_some_iff (t : BlueNoiseTables) (device : Device) (r : RtdgiRenderer) :
    RtdgiRenderer.new t device = some r ↔
      make_lut_buffer device t.RANKING_TILE = some r.ranking_tile_buf ∧
      make_lut_buffer device t.SCRAMBLING_TILE = some r.scambling_tile_buf ∧
      make_lut_buffer device t.SOBOL = some r.sobol_buf ∧
      r.temporal_tex = PingPongTemporalResource.new "rtdgi.final" ∧
      r.cv_temporal_tex = PingPongTemporalResource.new "rtdgi.cv" := by
  obtain ⟨rt, rc, rr, rs, rb⟩ := r
  cases h1 : make_lut_buffer device t.RANKING_TILE <;>
    cases h2 : make_lut_buffer device t.SCRAMBLING_TILE <;>
    cases h3 : make_lut_buffer device t.SOBOL <;>
    simp [RtdgiRenderer.new, h1, h2, h3, RtdgiRenderer.mk.injEq] <;>
    aesop

/-- C5: new(device) fails fatally (no partial or degraded constructed value)
if the creation or upload of any of the three LUT buffers (ranking,
scrambling, Sobol) fails; on success it returns a renderer holding all three
buffers. -/
theorem new_fatal_iff_lut_failure (t : BlueNoiseTables) (device : Device) :
    (RtdgiRenderer.new t device = none ↔
      make_lut_buffer device t.RANKING_TILE = none ∨
      make_lut_buffer device t.SCRAMBLING_TILE = none ∨
      make_lut_buffer device t.SOBOL = none) ∧
    (∀ r, RtdgiRenderer.new t device = some r →
      make_lut_buffer device t.RANKING_TILE = some r.ranking_tile_buf ∧
      make_lut_buffer device t.SCRAMBLING_TILE = some r.scambling_tile_buf ∧
      make_lut_buffer device t.SOBOL = some r.sobol_buf) := by
  constructor
  · cases h1 : make_lut_buffer device t.RANKING_TILE <;>
      cases h2 : make_lut_buffer device t.SCRAMBLING_TILE <;>
      cases h3 : make_lut_buffer device t.SOBOL <;>
      simp [RtdgiRenderer.new, h1, h2, h3]
  · intro r h
    obtain ⟨ha, hb, hc, -, -⟩ := (new_eq_some_iff t device r).1 h
    exact ⟨ha, hb, hc⟩

def testTables : BlueNoiseTables := ⟨[1, -2], [3], [4]⟩

def testDevice : Device := ⟨fun _ _ => false⟩

/-- Witness for C5: with an always-succeeding device, construction succeeds
and the iff and success characterizations hold at a concrete table set. -/
theorem new_fatal_iff_lut_failure_witness :
    ((RtdgiRenderer.new testTables testDevice = none ↔
      make_lut_buffer testDevice testTables.RANKING_TILE = none ∨
      make_lut_buffer testDevice testTables.SCRAMBLING_TILE = none ∨
      make_lut_buffer testDevice testTables.SOBOL = none) ∧
    (∀ r, RtdgiRenderer.new testTables testDevice = some r →
      make_lut_buffer testDevice testTables.RANKING_TILE = some r.ranking_tile_buf ∧
      make_lut_buffer testDevice testTables.SCRAMBLING_TILE = some r.scambling_tile_buf ∧
      make_lut_buffer testDevice testTables.SOBOL = some r.sobol_buf)) ∧
    RtdgiRenderer.new testTables testDevice ≠ none :=
  ⟨new_fatal_iff_lut_failure testTables testDevice, by decide⟩

/-- The byte reinterpretation of an `i32` table has exactly
`len * size_of::<i32>()` bytes. -/
theorem as_byte_slice_unchecked_length (v : List Int) :
    (as_byte_slice_unchecked v).length = v.length * 4 := by
  induction v with
  | nil => rfl
  | cons x xs ih =>
    show (int32ToBytes x ++ as_byte_slice_unchecked xs).length = (xs.length + 1) * 4
    rw [List.length_append, ih]
    simp [int32ToBytes]
    omega

/-- A successful `make_lut_buffer` yields a buffer whose descriptor asks for
exactly `len * 4` bytes of storage and whose contents are exactly the
table's bytes. -/
theorem make_lut_buffer_some (device : Device) (v : List Int) (b : Buffer)
    (h : make_lut_buffer device v = some b) :
    b.desc.size = v.length * 4 ∧
    b.desc.usage = BufferUsage.STORAGE_BUFFER ∧
    b.data = as_byte_slice_unchecked v ∧
    b.data.length = v.length * 4 := by
  unfold make_lut_buffer Device.create_buffer at h
  split at h
  · exact absurd h (by simp)
  · obtain rfl : (⟨BufferDesc.new (v.length * 4) BufferUsage.STORAGE_BUFFER,
        as_byte_slice_unchecked v⟩ : Buffer) = b := by
      exact Option.some.inj h
    exact ⟨rfl, rfl, rfl, as_byte_slice_unchecked_length v⟩

/-- C8: Each of the three LUT buffers created by new is created with byte
size equal to the source table's element count multiplied by the element's
byte size (4 bytes per `i32`), and is initialized with exactly the bytes of
that precomputed table. -/
theorem new_lut_buffers_sized_and_initialized (t : BlueNoiseTables)
    (device : Device) (r : RtdgiRenderer)
    (h : RtdgiRenderer.new t device = some r) :
    (r.ranking_tile_buf.desc.size = t.RANKING_TILE.length * 4 ∧
     r.ranking_tile_buf.data = as_byte_slice_unchecked t.RANKING_TILE ∧
     r.ranking_tile_buf.data.length = t.RANKING_TILE.length * 4) ∧
    (r.scambling_tile_buf.desc.size = t.SCRAMBLING_TILE.length * 4 ∧
     r.scambling_tile_buf.data = as_byte_slice_unchecked t.SCRAMBLING_TILE ∧
     r.scambling_tile_buf.data.length = t.SCRAMBLING_TILE.length * 4) ∧
    (r.sobol_buf.desc.size = t.SOBOL.length * 4 ∧
     r.sobol_buf.data = as_byte_slice_unchecked t.SOBOL ∧
     r.sobol_buf.data.length = t.SOBOL.length * 4) := by
  obtain ⟨ha, hb, hc, -, -⟩ := (new_eq_some_iff t device r).1 h
  obtain ⟨a1, -, a3, a4⟩ := make_lut_buffer_some device t.RANKING_TILE _ ha
  obtain ⟨b1, -, b3, b4⟩ := make_lut_buffer_some device t.SCRAMBLING_TILE _ hb
  obtain ⟨c1, -, c3, c4⟩ := make_lut_buffer_some device t.SOBOL _ hc
  exact ⟨⟨a1, a3, a4⟩, ⟨b1, b3, b4⟩, ⟨c1, c3, c4⟩⟩

/-- The renderer value produced by `new` on the concrete test tables with an
always-succeeding device. -/
def testRenderer : RtdgiRenderer :=
  ⟨⟨"rtdgi.final", none, false⟩, ⟨"rtdgi.cv", none, false⟩,
   ⟨⟨8, BufferUsage.STORAGE_BUFFER⟩, [1, 0, 0, 0, 254, 255, 255, 255]⟩,
   ⟨⟨4, BufferUsage.STORAGE_BUFFER⟩, [3, 0, 0, 0]⟩,
   ⟨⟨4, BufferUsage.STORAGE_BUFFER⟩, [4, 0, 0, 0]⟩⟩

/-- Witness for C8 at the concrete table set. -/
theorem new_lut_buffers_sized_and_initialized_witness :
    RtdgiRenderer.new testTables testDevice = some testRenderer ∧
    ((testRenderer.ranking_tile_buf.desc.size = testTables.RANKING_TILE.length * 4 ∧
      testRenderer.ranking_tile_buf.data = as_byte_slice_unchecked testTables.RANKING_TILE ∧
      testRenderer.ranking_tile_buf.data.length = testTables.RANKING_TILE.length * 4) ∧
     (testRenderer.scambling_tile_buf.desc.size = testTables.SCRAMBLING_TILE.length * 4 ∧
      testRenderer.scambling_tile_buf.data = as_byte_slice_unchecked testTables.SCRAMBLING_TILE ∧
      testRenderer.scambling_tile_buf.data.length = testTables.SCRAMBLING_TILE.length * 4) ∧
     (testRenderer.sobol_buf.desc.size = testTables.SOBOL.length * 4 ∧
      testRenderer.sobol_buf.data = as_byte_slice_unchecked testTables.SOBOL ∧
      testRenderer.sobol_buf.data.length = testTables.SOBOL.length * 4)) :=
  ⟨by decide,
   new_lut_buffers_sized_and_initialized testTables testDevice testRenderer (by decide)⟩
